import Mathlib

/-!
Shallow embedding of src/lambda/lambda_function.py (TinyPixo).

The handler is a thin AWS-Lambda-style dispatcher: it parses a request
event, validates the url, and dispatches on the action to either a
metadata lookup (get_video_info) or a download path (download_video).
The external collaborators (json.loads, the yt_dlp extraction library,
the filesystem read) are modelled as an oracle record `Env`; the
per-invocation temporary directory is modelled by an explicit `World`
state, and calls to the extraction library are recorded in a `Trace`.
-/

/-- Python/JSON values, as used by the handler: None, bool, int, str,
list and (string-keyed) dict. -/
inductive PyVal where
  | none
  | bool (b : Bool)
  | int (n : Int)
  | str (s : String)
  | list (xs : List PyVal)
  | dict (entries : List (String × PyVal))

/-- Exceptions are modelled by their message text, as surfaced by
Python str(e). -/
abbrev PyErr := String

/-- Python truthiness, as used by `if not url` and
`if event.get("body")`. -/
def pyTruthy : PyVal → Bool
  | .none => false
  | .bool b => b
  | .int n => n != 0
  | .str s => !(s == "")
  | .list xs => !xs.isEmpty
  | .dict es => !es.isEmpty

/-- First value bound to key k in a dict entry list, or the default
(Python dict.get(k, d)). -/
def dictGetD (es : List (String × PyVal)) (k : String) (d : PyVal) : PyVal :=
  match es.find? (fun p => p.fst == k) with
  | some p => p.snd
  | Option.none => d

/-- Python v.get(k, d): dict lookup with default; a non-dict receiver raises
AttributeError, as in Python. -/
def pyGet (v : PyVal) (k : String) (d : PyVal) : Except PyErr PyVal :=
  match v with
  | .dict es => .ok (dictGetD es k d)
  | _ => .error "AttributeError: object has no attribute get"

mutual

/-- Python ==: numeric cross-equality between bool and int, elementwise
on lists and (order-sensitively, which the handler never exercises) on
dicts, False across different types, never an error. -/
def pyEq : PyVal → PyVal → Bool
  | .none, .none => true
  | .bool a, .bool b => a == b
  | .bool a, .int n => (if a then (1 : Int) else 0) == n
  | .int n, .bool b => n == (if b then (1 : Int) else 0)
  | .int m, .int n => m == n
  | .str s, .str t => s == t
  | .list xs, .list ys => pyEqList xs ys
  | .dict es, .dict fs => pyEqEntries es fs
  | _, _ => false

/-- Elementwise Python == on lists. -/
def pyEqList : List PyVal → List PyVal → Bool
  | [], [] => true
  | x :: xs, y :: ys => pyEq x y && pyEqList xs ys
  | _, _ => false

/-- Entrywise Python == on dict entry lists. -/
def pyEqEntries : List (String × PyVal) → List (String × PyVal) → Bool
  | [], [] => true
  | (k, v) :: es, (l, w) :: fs => k == l && pyEq v w && pyEqEntries es fs
  | _, _ => false

end

/-- needle is a contiguous substring of hay (character lists). -/
def charsContain (needle : List Char) : List Char → Bool
  | [] => needle.isEmpty
  | c :: t => needle.isPrefixOf (c :: t) || charsContain needle t

/-- needle in hay for Python strings: substring containment. -/
def strContains (hay needle : String) : Bool :=
  charsContain needle.toList hay.toList

/-- Python `x in c`: substring test on strings, membership on lists,
key membership on dicts; TypeError otherwise. -/
def pyIn (needle container : PyVal) : Except PyErr Bool :=
  match container with
  | .str hay =>
    match needle with
    | .str n => .ok (strContains hay n)
    | _ => .error "TypeError: in requires string as left operand"
  | .list xs => .ok (xs.any (fun x => pyEq x needle))
  | .dict es => .ok (es.any (fun p => pyEq (.str p.fst) needle))
  | _ => .error "TypeError: argument is not iterable"

/-- Python len(), as applied to info.get("formats", []); raises
TypeError on values without a length. -/
def pyLen : PyVal → Except PyErr PyVal
  | .str s => .ok (.int s.length)
  | .list xs => .ok (.int xs.length)
  | .dict es => .ok (.int es.length)
  | _ => .error "TypeError: object has no len"

mutual

/-- Python repr(v) (string escaping inside the quotes is not modelled;
the handler only ever interpolates plain scalars). -/
def pyRepr : PyVal → String
  | .none => "None"
  | .bool b => if b then "True" else "False"
  | .int n => toString n
  | .str s => "\x27" ++ s ++ "\x27"
  | .list xs => "[" ++ String.intercalate ", " (pyReprList xs) ++ "]"
  | .dict es => "\x7b" ++ String.intercalate ", " (pyReprEntries es) ++ "\x7d"

/-- repr of each element of a list. -/
def pyReprList : List PyVal → List String
  | [] => []
  | v :: t => pyRepr v :: pyReprList t

/-- repr of each entry of a dict. -/
def pyReprEntries : List (String × PyVal) → List String
  | [] => []
  | (k, v) :: t => ("\x27" ++ k ++ "\x27: " ++ pyRepr v) :: pyReprEntries t

end

/-- Python str(v), as used by the f-string building the output path:
identity on strings, repr-like elsewhere. -/
def pyStr : PyVal → String
  | .str s => s
  | v => pyRepr v

/-- The Lambda response envelope: statusCode, headers and the object
passed to json.dumps for the body (the body is kept structured; every
body the handler builds is JSON-serialisable, so json.dumps is the
injective serialisation of this value). -/
structure Response where
  statusCode : Nat
  headers : List (String × String)
  body : PyVal

/-- The header map used by every response in the source. -/
def jsonHeaders : List (String × String) := [("Content-Type", "application/json")]

/-- Filesystem state visible to the handler: a per-process counter for
fresh temporary-directory names, and the list of directories currently
existing. -/
structure World where
  counter : Nat
  liveDirs : List String

/-- tempfile.TemporaryDirectory() entry: create a fresh directory. -/
def mkTempDir (w : World) : String × World :=
  let name := "/tmp/tmp" ++ toString w.counter
  (name, ⟨w.counter + 1, name :: w.liveDirs⟩)

/-- tempfile.TemporaryDirectory() exit: remove the directory (runs on
every exit from the with-block, normal or exceptional). -/
def rmDir (d : String) (w : World) : World :=
  ⟨w.counter, w.liveDirs.erase d⟩

/-- A call made to the yt_dlp extraction collaborator: either
YoutubeDL(opts).extract_info(url, download=flag) or
YoutubeDL(opts).download(urls). -/
inductive CollabCall where
  | extractInfo (opts url : PyVal) (downloadFlag : Bool)
  | download (opts : PyVal) (urls : List PyVal)

/-- Record of the collaborator calls made during one invocation. -/
abbrev Trace := List CollabCall

/-- Behaviour of the external collaborators, quantified over in the
theorems: json.loads (stdlib), yt_dlp extract_info and download, and
the filesystem read of the downloaded file.  download returns the
names os.listdir finds in the temporary directory afterwards (in
listdir order), or raises; each may raise with any message. -/
structure Env where
  loads : PyVal → Except PyErr PyVal
  extract_info : PyVal → PyVal → Bool → Except PyErr PyVal
  download : PyVal → List PyVal → Except PyErr (List String)
  readFile : String → Except PyErr (List Nat)

/-- Character of the base64 alphabet at index n. -/
def b64Char (n : Nat) : Char :=
  "ABCDEFGHIJKLMNOPQRSTUVWXYZabcdefghijklmnopqrstuvwxyz0123456789+/".toList.getD n '='

/-- base64.b64encode(file_data).decode("utf-8"): standard base64 of a
byte sequence, padded with the equals sign. -/
def b64encode : List Nat → String
  | [] => ""
  | [a] =>
    let a := a % 256
    String.mk [b64Char (a / 4), b64Char (a % 4 * 16), '=', '=']
  | [a, b] =>
    let a := a % 256
    let b := b % 256
    String.mk [b64Char (a / 4), b64Char (a % 4 * 16 + b / 16), b64Char (b % 16 * 4), '=']
  | a :: b :: c :: rest =>
    let a := a % 256
    let b := b % 256
    let c := c % 256
    String.mk [b64Char (a / 4), b64Char (a % 4 * 16 + b / 16),
               b64Char (b % 16 * 4 + c / 64), b64Char (c % 64)] ++ b64encode rest

/-- The ydl_opts dict built by get_video_info (source lines 51-54). -/
def info_opts : PyVal := .dict [("quiet", .bool true), ("no_warnings", .bool true)]

/-- get_video_info (source lines 49-70): probe metadata with
download=False and marshal the six response fields; any failure (the
collaborator raising, a non-dict info object, a length-less formats
value) propagates as an error.  Returns the result together with the
trace of collaborator calls. -/
def get_video_info (env : Env) (url : PyVal) : Except PyErr Response × Trace :=
  let tr : Trace := [.extractInfo info_opts url false]
  match env.extract_info info_opts url false with
  | .error e => (.error e, tr)
  | .ok info =>
    let bodyE : Except PyErr PyVal := do
      let title ← pyGet info "title" (.str "Unknown")
      let thumbnail ← pyGet info "thumbnail" .none
      let duration ← pyGet info "duration" .none
      let uploader ← pyGet info "uploader" .none
      let view_count ← pyGet info "view_count" .none
      let formats ← pyGet info "formats" (.list [])
      let formats_available ← pyLen formats
      pure (.dict [("title", title), ("thumbnail", thumbnail),
                   ("duration", duration), ("uploader", uploader),
                   ("view_count", view_count),
                   ("formats_available", formats_available)])
    match bodyE with
    | .error e => (.error e, tr)
    | .ok body => (.ok ⟨200, jsonHeaders, body⟩, tr)

/-- The ydl_opts dict built by download_video (source lines 77-93),
selecting audio extraction for format "mp3" and best-mp4 otherwise. -/
def mkDlOpts (output_path : String) (format_type : PyVal) : PyVal :=
  if pyEq format_type (.str "mp3") then
    .dict [("format", .str "bestaudio/best"),
           ("outtmpl", .str output_path),
           ("postprocessors",
             .list [.dict [("key", .str "FFmpegExtractAudio"),
                           ("preferredcodec", .str "mp3"),
                           ("preferredquality", .str "192")]]),
           ("quiet", .bool true)]
  else
    .dict [("format", .str "best[ext=mp4]/best"),
           ("outtmpl", .str output_path),
           ("quiet", .bool true)]

/-- download_video (source lines 72-118): inside a TemporaryDirectory
with-block, run the download of the collaborator, list the directory, fail
if it is empty, read and base64-encode the first file, and build the
200 response; the directory is removed on every exit path. -/
def download_video (env : Env) (w : World) (url format_type : PyVal) :
    Except PyErr Response × World × Trace :=
  let (temp_dir, w1) := mkTempDir w
  let output_path := temp_dir ++ "/video." ++ pyStr format_type
  let ydl_opts := mkDlOpts output_path format_type
  let tr : Trace := [.download ydl_opts [url]]
  match env.download ydl_opts [url] with
  | .error e => (.error e, rmDir temp_dir w1, tr)
  | .ok files =>
    match files with
    | [] => (.error "Download failed - no file created", rmDir temp_dir w1, tr)
    | f :: _ =>
      let downloaded_file := temp_dir ++ "/" ++ f
      match env.readFile downloaded_file with
      | .error e => (.error e, rmDir temp_dir w1, tr)
      | .ok file_data =>
        let file_base64 := b64encode file_data
        (.ok ⟨200, jsonHeaders,
              .dict [("file_data", .str file_base64),
                     ("filename", .str f),
                     ("content_type",
                       if pyEq format_type (.str "mp4") then .str "video/mp4"
                       else .str "audio/mpeg")]⟩,
         rmDir temp_dir w1, tr)

/-- Source line 11: body = json.loads(event["body"]) if
event.get("body") else event. -/
def parseBody (env : Env) (event : PyVal) : Except PyErr PyVal := do
  let b ← pyGet event "body" .none
  if pyTruthy b then env.loads b else pure event

/-- Source line 24: the short-circuit host check
("youtube.com" in url or "youtu.be" in url). -/
def hostOk (url : PyVal) : Except PyErr Bool := do
  let m1 ← pyIn (.str "youtube.com") url
  if m1 then pure true else pyIn (.str "youtu.be") url

/-- The 400 response for a missing url (source lines 17-21). -/
def respUrlRequired : Response :=
  ⟨400, jsonHeaders, .dict [("error", .str "URL is required")]⟩

/-- The 400 response for a url failing host validation (lines 25-29). -/
def respInvalidUrl : Response :=
  ⟨400, jsonHeaders, .dict [("error", .str "Invalid YouTube URL")]⟩

/-- The 400 response for an unrecognized action (lines 36-40). -/
def respInvalidAction : Response :=
  ⟨400, jsonHeaders, .dict [("error", .str "Invalid action")]⟩

/-- The catch-all 500 response (source lines 43-47). -/
def resp500 (e : PyErr) : Response :=
  ⟨500, jsonHeaders, .dict [("error", .str e)]⟩

/-- The dispatch on action (source lines 31-40), reached once the url
is present and host-validated. -/
def afterValidation (env : Env) (w : World) (url action format_type : PyVal) :
    Except PyErr Response × World × Trace :=
  if pyEq action (.str "info") then
    let (r, tr) := get_video_info env url
    (r, w, tr)
  else if pyEq action (.str "download") then
    download_video env w url format_type
  else
    (.ok respInvalidAction, w, [])

/-- The body of the try-block of lambda_handler (source lines 10-40): parse,
extract url/action/format, check url presence, host-validate, dispatch. -/
def handlerBody (env : Env) (w : World) (event : PyVal) :
    Except PyErr Response × World × Trace :=
  match parseBody env event with
  | .error e => (.error e, w, [])
  | .ok body =>
    match pyGet body "url" .none with
    | .error e => (.error e, w, [])
    | .ok url =>
      match pyGet body "action" (.str "info") with
      | .error e => (.error e, w, [])
      | .ok action =>
        match pyGet body "format" (.str "mp4") with
        | .error e => (.error e, w, [])
        | .ok format_type =>
          if !(pyTruthy url) then (.ok respUrlRequired, w, [])
          else
            match hostOk url with
            | .error e => (.error e, w, [])
            | .ok true => afterValidation env w url action format_type
            | .ok false => (.ok respInvalidUrl, w, [])

/-- The try/except wrapper: an error anywhere in the body becomes the
catch-all 500 response (source lines 42-47). -/
def catchAll : Except PyErr Response × World × Trace → Response × World × Trace
  | (.ok r, w, tr) => (r, w, tr)
  | (.error e, w, tr) => (resp500 e, w, tr)

/-- lambda_handler (source lines 8-47): the full entry point.  It is a
total function into Response: no exception escapes. -/
def lambda_handler (env : Env) (w : World) (event : PyVal) : Response × World × Trace :=
  catchAll (handlerBody env w event)

/-- The initial filesystem state used by the concrete scenarios. -/
def w0 : World := ⟨0, []⟩

/-- The stubbed metadata object of end-to-end scenario A. -/
def infoStubA : PyVal :=
  .dict [("title", .str "T"), ("thumbnail", .str "th"), ("duration", .int 120),
         ("uploader", .str "U"), ("view_count", .int 5),
         ("formats", .list [.int 1, .int 2, .int 3])]

/-- Collaborator behaviour for scenario A: extract_info returns the
stub above. -/
def envInfoStub : Env :=
  { loads := fun _ => .error "loads unused"
    extract_info := fun _ _ _ => .ok infoStubA
    download := fun _ _ => .ok []
    readFile := fun _ => .ok [] }

/-- The scenario A request event. -/
def eventScenarioA : PyVal :=
  .dict [("url", .str "https://youtu.be/abc123"), ("action", .str "info")]

/-- Collaborator behaviour whose download leaves one file, video.webm,
with bytes 1, 2, 3. -/
def envDl : Env :=
  { loads := fun _ => .error "loads unused"
    extract_info := fun _ _ _ => .ok .none
    download := fun _ _ => .ok ["video.webm"]
    readFile := fun _ => .ok [1, 2, 3] }

/-- Collaborator behaviour whose download completes but leaves the
temporary directory empty. -/
def envEmptyDl : Env :=
  { envDl with download := fun _ _ => .ok [] }

/-- Collaborator behaviour whose json.loads raises. -/
def envLoadsRaises : Env :=
  { envDl with loads := fun _ => .error "boom" }

/-- A download request carrying the unrecognized format value webm. -/
def eventWebm : PyVal :=
  .dict [("url", .str "https://youtu.be/abc123"), ("action", .str "download"),
         ("format", .str "webm")]

/-- A download request with format mp3. -/
def eventMp3List : List (String × PyVal) :=
  [("url", .str "https://youtu.be/abc123"), ("action", .str "download"),
   ("format", .str "mp3")]

/-- A download request with no format key (defaulting to mp4). -/
def eventDlDefaultList : List (String × PyVal) :=
  [("url", .str "https://youtu.be/abc123"), ("action", .str "download")]

/-- A request whose url fails host validation and whose action is
unrecognized. -/
def eventBadBoth : PyVal :=
  .dict [("url", .str "x"), ("action", .str "delete")]

theorem catchAll_snd (p : Except PyErr Response × World × Trace) :
    (catchAll p).2 = p.2 := by
  rcases p with ⟨r, w, tr⟩
  cases r <;> rfl

theorem get_video_info_trace (env : Env) (u : PyVal) :
    (get_video_info env u).2 = [.extractInfo info_opts u false] := by
  unfold get_video_info
  rcases env.extract_info info_opts u false with e | info
  · rfl
  · dsimp only
    split <;> rfl

theorem handlerBody_eq_afterValidation (env : Env) (w : World) (es : List (String × PyVal))
    (hbody : pyTruthy (dictGetD es "body" PyVal.none) = false)
    (hurl : pyTruthy (dictGetD es "url" PyVal.none) = true)
    (hhost : hostOk (dictGetD es "url" PyVal.none) = .ok true) :
    handlerBody env w (.dict es) =
      afterValidation env w (dictGetD es "url" PyVal.none)
        (dictGetD es "action" (.str "info")) (dictGetD es "format" (.str "mp4")) := by
  unfold handlerBody parseBody
  simp [Bind.bind, Except.bind, Pure.pure, Except.pure, pyGet, hbody, hurl, hhost]

theorem download_video_liveDirs (env : Env) (w : World) (url format_type : PyVal) :
    ((download_video env w url format_type).2.1).liveDirs = w.liveDirs := by
  unfold download_video
  dsimp only
  split
  · simp [mkTempDir, rmDir]
  · split
    · simp [mkTempDir, rmDir]
    · split <;> simp [mkTempDir, rmDir]

theorem download_video_ok_shape (env : Env) (w : World) (url fmt : PyVal)
    (r : Response) (w2 : World) (tr : Trace)
    (h : download_video env w url fmt = (.ok r, w2, tr)) :
    ∃ fd fn, r = ⟨200, jsonHeaders,
      .dict [("file_data", fd), ("filename", fn),
             ("content_type", if pyEq fmt (.str "mp4") then PyVal.str "video/mp4"
                              else .str "audio/mpeg")]⟩ := by
  unfold download_video at h
  dsimp only at h
  split at h
  · simp at h
  · split at h
    · simp at h
    · split at h
      · simp at h
      · simp only [Prod.mk.injEq, Except.ok.injEq] at h
        exact ⟨_, _, h.1.symm⟩

theorem handler_download_path (env : Env) (w : World) (es : List (String × PyVal))
    (hbody : pyTruthy (dictGetD es "body" PyVal.none) = false)
    (hurl : pyTruthy (dictGetD es "url" PyVal.none) = true)
    (hhost : hostOk (dictGetD es "url" PyVal.none) = .ok true)
    (haction : dictGetD es "action" (.str "info") = .str "download") :
    lambda_handler env w (.dict es) =
      catchAll (download_video env w (dictGetD es "url" PyVal.none)
                  (dictGetD es "format" (.str "mp4"))) := by
  unfold lambda_handler
  rw [handlerBody_eq_afterValidation env w es hbody hurl hhost, haction]
  unfold afterValidation
  simp [pyEq]

theorem handler_info_path (env : Env) (w : World) (es : List (String × PyVal))
    (hbody : pyTruthy (dictGetD es "body" PyVal.none) = false)
    (hurl : pyTruthy (dictGetD es "url" PyVal.none) = true)
    (hhost : hostOk (dictGetD es "url" PyVal.none) = .ok true)
    (haction : dictGetD es "action" (.str "info") = .str "info") :
    lambda_handler env w (.dict es) =
      catchAll ((get_video_info env (dictGetD es "url" PyVal.none)).1, w,
                (get_video_info env (dictGetD es "url" PyVal.none)).2) := by
  unfold lambda_handler
  rw [handlerBody_eq_afterValidation env w es hbody hurl hhost, haction]
  unfold afterValidation
  simp [pyEq]

/-- C2: on the event with url https://youtu.be/abc123 and action info,
with the collaborator returning the stubbed metadata of scenario A, the
handler returns statusCode 200 and the six-field body, in which
formats_available is the length (3) of the formats list of the stub. -/
theorem C2_scenario_a :
    lambda_handler envInfoStub w0 eventScenarioA =
      (⟨200, jsonHeaders,
        .dict [("title", .str "T"), ("thumbnail", .str "th"), ("duration", .int 120),
               ("uploader", .str "U"), ("view_count", .int 5),
               ("formats_available", .int 3)]⟩, w0,
       [.extractInfo info_opts (.str "https://youtu.be/abc123") false]) ∧
    (PyVal.int 3) = .int (([PyVal.int 1, .int 2, .int 3] : List PyVal).length) :=
  ⟨rfl, rfl⟩

/-- C4: on every download invocation and on every exit path (the
collaborator raising, the empty-directory failure, a file-read error,
or normal return), the temporary directory created by download_video
has been removed by the time it exits: the set of live directories is
restored exactly. -/
theorem C4_tempdir_cleanup (env : Env) (w : World) (url format_type : PyVal) :
    ((download_video env w url format_type).2.1).liveDirs = w.liveDirs :=
  download_video_liveDirs env w url format_type

/-- C5: for every request whose parsed body has a valid, host-matching
url and whose action is info (explicitly or by default, both captured
by the action lookup with default info yielding the string info), the
handler leaves the filesystem state untouched (no temporary file or
directory is created) and the only collaborator call is
extract_info(url, download=False). -/
theorem C5_info_no_download (env : Env) (w : World) (es : List (String × PyVal))
    (hbody : pyTruthy (dictGetD es "body" PyVal.none) = false)
    (hurl : pyTruthy (dictGetD es "url" PyVal.none) = true)
    (hhost : hostOk (dictGetD es "url" PyVal.none) = .ok true)
    (haction : dictGetD es "action" (.str "info") = .str "info") :
    (lambda_handler env w (.dict es)).2.1 = w ∧
    (lambda_handler env w (.dict es)).2.2 =
      [CollabCall.extractInfo info_opts (dictGetD es "url" PyVal.none) false] := by
  rw [handler_info_path env w es hbody hurl hhost haction, catchAll_snd]
  exact ⟨rfl, get_video_info_trace env _⟩

/-- C5 witness: the scenario A event has action info explicitly, and
the handler leaves the world unchanged with the single probe call. -/
theorem C5_info_no_download_witness :
    (lambda_handler envInfoStub w0
      (.dict [("url", .str "https://youtu.be/abc123"), ("action", .str "info")])).2.1 = w0 ∧
    (lambda_handler envInfoStub w0
      (.dict [("url", .str "https://youtu.be/abc123"), ("action", .str "info")])).2.2 =
      [CollabCall.extractInfo info_opts
        (dictGetD [("url", .str "https://youtu.be/abc123"), ("action", .str "info")]
          "url" PyVal.none) false] :=
  C5_info_no_download envInfoStub w0
    [("url", .str "https://youtu.be/abc123"), ("action", .str "info")] rfl rfl rfl rfl

/-- C6: for every request whose parsed body is a dict in which the url
key is absent (the lookup defaults to None), bound to None, or bound to
the empty string, the handler returns 400 with error URL is required,
making no collaborator call. -/
theorem C6_missing_url_400 (env : Env) (w : World) (es : List (String × PyVal))
    (hbody : pyTruthy (dictGetD es "body" PyVal.none) = false)
    (hurl : dictGetD es "url" PyVal.none = PyVal.none ∨
            dictGetD es "url" PyVal.none = .str "") :
    lambda_handler env w (.dict es) = (respUrlRequired, w, []) := by
  have ht : pyTruthy (dictGetD es "url" PyVal.none) = false := by
    rcases hurl with h | h <;> rw [h] <;> rfl
  unfold lambda_handler handlerBody parseBody
  simp [Bind.bind, Except.bind, Pure.pure, Except.pure, pyGet, hbody, ht, catchAll]

/-- C6 witness: a request with an action but no url key returns the
URL-is-required 400. -/
theorem C6_missing_url_400_witness :
    lambda_handler envDl w0 (.dict [("action", .str "download")]) =
      (respUrlRequired, w0, []) :=
  C6_missing_url_400 envDl w0 [("action", .str "download")] rfl (Or.inl rfl)

/-- C7: for every request whose url is a non-empty string, if the url
contains neither youtube.com nor youtu.be as a substring the handler
returns 400 with error Invalid YouTube URL and makes no collaborator
call; and if it contains either marker the request passes validation,
i.e. the handler proceeds to the action dispatch. -/
theorem C7_host_validation (env : Env) (w : World) (es : List (String × PyVal)) (u : String)
    (hbody : pyTruthy (dictGetD es "body" PyVal.none) = false)
    (hurl : dictGetD es "url" PyVal.none = .str u)
    (hne : (u == "") = false) :
    ((strContains u "youtube.com" = false ∧ strContains u "youtu.be" = false) →
       lambda_handler env w (.dict es) = (respInvalidUrl, w, [])) ∧
    ((strContains u "youtube.com" = true ∨ strContains u "youtu.be" = true) →
       lambda_handler env w (.dict es) =
         catchAll (afterValidation env w (.str u)
           (dictGetD es "action" (.str "info")) (dictGetD es "format" (.str "mp4")))) := by
  have htr : pyTruthy (dictGetD es "url" PyVal.none) = true := by
    rw [hurl]; simp [pyTruthy, hne]
  constructor
  · rintro ⟨h1, h2⟩
    have hh : hostOk (dictGetD es "url" PyVal.none) = .ok false := by
      rw [hurl]; simp [hostOk, pyIn, Bind.bind, Except.bind, h1, h2]
    unfold lambda_handler handlerBody parseBody
    simp [Bind.bind, Except.bind, Pure.pure, Except.pure, pyGet, hbody, htr, hh, catchAll]
  · intro hm
    have hh : hostOk (dictGetD es "url" PyVal.none) = .ok true := by
      rw [hurl]
      rcases hm with h | h
      · simp [hostOk, pyIn, Bind.bind, Except.bind, h, Pure.pure, Except.pure]
      · rcases hc : strContains u "youtube.com" <;>
          simp [hostOk, pyIn, Bind.bind, Except.bind, h, hc, Pure.pure, Except.pure]
    unfold lambda_handler
    rw [handlerBody_eq_afterValidation env w es hbody htr hh, hurl]

/-- C7 witness: end-to-end scenario B, the url not-a-video-url contains
no host marker, so the handler returns the Invalid-YouTube-URL 400. -/
theorem C7_host_validation_witness :
    lambda_handler envDl w0
      (.dict [("url", .str "not-a-video-url"), ("action", .str "info")]) =
      (respInvalidUrl, w0, []) :=
  (C7_host_validation envDl w0 [("url", .str "not-a-video-url"), ("action", .str "info")]
    "not-a-video-url" rfl rfl rfl).1 ⟨rfl, rfl⟩

/-- C9: every error raised inside the try-block of lambda_handler (body
parsing, extraction, download, file reading) is caught and surfaced as
statusCode 500 with the application/json header and body containing the
str of the exception; by totality of lambda_handler no exception
propagates to the caller. -/
theorem C9_catch_all_500 (env : Env) (w : World) (event : PyVal) (e : PyErr)
    (w2 : World) (tr : Trace)
    (h : handlerBody env w event = (.error e, w2, tr)) :
    lambda_handler env w event =
      (⟨500, [("Content-Type", "application/json")], .dict [("error", .str e)]⟩, w2, tr) := by
  unfold lambda_handler
  rw [h]
  rfl

/-- C9 witness: with json.loads raising boom on a string body, the
handler returns the 500 envelope carrying boom. -/
theorem C9_catch_all_500_witness :
    handlerBody envLoadsRaises w0 (.dict [("body", .str "x")]) = (.error "boom", w0, []) ∧
    lambda_handler envLoadsRaises w0 (.dict [("body", .str "x")]) =
      (⟨500, [("Content-Type", "application/json")], .dict [("error", .str "boom")]⟩, w0, []) :=
  ⟨rfl, C9_catch_all_500 envLoadsRaises w0 (.dict [("body", .str "x")]) "boom" w0 [] rfl⟩

/-- C3: for every download request (valid url, action download) in
which the collaborator download completes but leaves the temporary
directory empty, the handler returns statusCode 500 whose error field
is exactly the message Download failed - no file created (which in
particular contains it). -/
theorem C3_empty_download_500 (env : Env) (w : World) (es : List (String × PyVal))
    (hbody : pyTruthy (dictGetD es "body" PyVal.none) = false)
    (hurl : pyTruthy (dictGetD es "url" PyVal.none) = true)
    (hhost : hostOk (dictGetD es "url" PyVal.none) = .ok true)
    (haction : dictGetD es "action" (.str "info") = .str "download")
    (hdl : ∀ opts urls, env.download opts urls = .ok []) :
    (lambda_handler env w (.dict es)).1 =
      resp500 "Download failed - no file created" := by
  rw [handler_download_path env w es hbody hurl hhost haction]
  unfold download_video
  simp [hdl, catchAll]

/-- C3 witness: a concrete mp4-default download whose collaborator
leaves the directory empty yields the 500. -/
theorem C3_empty_download_500_witness :
    (lambda_handler envEmptyDl w0 (.dict eventDlDefaultList)).1 =
      resp500 "Download failed - no file created" :=
  C3_empty_download_500 envEmptyDl w0 eventDlDefaultList rfl rfl rfl rfl
    (fun _ _ => rfl)

/-- C10: the three client-error checks run in a fixed precedence order.
With the body parsed structurally, (1) a falsy url wins over anything
else, whatever the action; (2) a present non-matching string url wins
over an unrecognized action; (3) the Invalid-action 400 can only be
produced when the url is truthy and passes host validation. -/
theorem C10_check_precedence (env : Env) (w : World) (es : List (String × PyVal))
    (hbody : pyTruthy (dictGetD es "body" PyVal.none) = false) :
    ((dictGetD es "url" PyVal.none = PyVal.none ∨ dictGetD es "url" PyVal.none = .str "") →
       lambda_handler env w (.dict es) = (respUrlRequired, w, [])) ∧
    (∀ u : String, dictGetD es "url" PyVal.none = .str u → (u == "") = false →
       strContains u "youtube.com" = false → strContains u "youtu.be" = false →
       lambda_handler env w (.dict es) = (respInvalidUrl, w, [])) ∧
    ((lambda_handler env w (.dict es)).1 = respInvalidAction →
       pyTruthy (dictGetD es "url" PyVal.none) = true ∧
       hostOk (dictGetD es "url" PyVal.none) = .ok true) := by
  refine ⟨?_, ?_, ?_⟩
  · intro hu
    have ht : pyTruthy (dictGetD es "url" PyVal.none) = false := by
      rcases hu with h | h <;> rw [h] <;> rfl
    unfold lambda_handler handlerBody parseBody
    simp [Bind.bind, Except.bind, Pure.pure, Except.pure, pyGet, hbody, ht, catchAll]
  · intro u hu hne h1 h2
    have htr : pyTruthy (dictGetD es "url" PyVal.none) = true := by
      rw [hu]; simp [pyTruthy, hne]
    have hh : hostOk (dictGetD es "url" PyVal.none) = .ok false := by
      rw [hu]; simp [hostOk, pyIn, Bind.bind, Except.bind, h1, h2]
    unfold lambda_handler handlerBody parseBody
    simp [Bind.bind, Except.bind, Pure.pure, Except.pure, pyGet, hbody, htr, hh, catchAll]
  · intro hia
    by_cases hu : pyTruthy (dictGetD es "url" PyVal.none) = true
    · rcases hh : hostOk (dictGetD es "url" PyVal.none) with e | b
      · exfalso
        have hrun : lambda_handler env w (.dict es) = (resp500 e, w, []) := by
          unfold lambda_handler handlerBody parseBody
          simp [Bind.bind, Except.bind, Pure.pure, Except.pure, pyGet, hbody, hu, hh, catchAll]
        rw [hrun] at hia
        have := congrArg Response.statusCode hia
        simp [resp500, respInvalidAction] at this
      · cases b
        · exfalso
          have hrun : lambda_handler env w (.dict es) = (respInvalidUrl, w, []) := by
            unfold lambda_handler handlerBody parseBody
            simp [Bind.bind, Except.bind, Pure.pure, Except.pure, pyGet, hbody, hu, hh, catchAll]
          rw [hrun] at hia
          simp [respInvalidUrl, respInvalidAction, Response.mk.injEq] at hia
        · exact ⟨hu, rfl⟩
    · exfalso
      have hrun : lambda_handler env w (.dict es) = (respUrlRequired, w, []) := by
        unfold lambda_handler handlerBody parseBody
        simp [Bind.bind, Except.bind, Pure.pure, Except.pure, pyGet, hbody, hu, catchAll]
      rw [hrun] at hia
      simp [respUrlRequired, respInvalidAction, Response.mk.injEq] at hia

/-- C10 witness: a request with a valid url and the unrecognized action
bogus produces the Invalid-action 400, and by the theorem its url is
truthy and host-valid. -/
theorem C10_check_precedence_witness :
    pyTruthy (dictGetD [("url", PyVal.str "https://youtu.be/a"), ("action", PyVal.str "bogus")]
      "url" PyVal.none) = true ∧
    hostOk (dictGetD [("url", PyVal.str "https://youtu.be/a"), ("action", PyVal.str "bogus")]
      "url" PyVal.none) = .ok true :=
  (C10_check_precedence envDl w0
    [("url", PyVal.str "https://youtu.be/a"), ("action", PyVal.str "bogus")] rfl).2.2 rfl

/-- C1 counterexample: the claim predicts content_type video/mp4 for
every format other than mp3, but on a download request with format
webm the code takes the else-branch of the line-116 conditional and
returns content_type audio/mpeg, not video/mp4. -/
theorem C1_content_type_counterexample :
    (lambda_handler envDl w0 eventWebm).1 =
      ⟨200, jsonHeaders,
        .dict [("file_data", .str "AQID"), ("filename", .str "video.webm"),
               ("content_type", .str "audio/mpeg")]⟩ ∧
    pyEq (.str "webm") (.str "mp3") = false ∧
    PyVal.str "audio/mpeg" ≠ .str "video/mp4" :=
  ⟨rfl, rfl, by simp⟩

/-- C1 (amended): for every download request that succeeds (statusCode
200), the content_type field is video/mp4 when the format value
(defaulting to mp4 when the key is omitted) equals mp4, and audio/mpeg
for every other format value, mp3 included. -/
theorem C1_content_type_amended (env : Env) (w : World) (es : List (String × PyVal))
    (hbody : pyTruthy (dictGetD es "body" PyVal.none) = false)
    (hurl : pyTruthy (dictGetD es "url" PyVal.none) = true)
    (hhost : hostOk (dictGetD es "url" PyVal.none) = .ok true)
    (haction : dictGetD es "action" (.str "info") = .str "download")
    (h200 : (lambda_handler env w (.dict es)).1.statusCode = 200) :
    ∃ fd fn, (lambda_handler env w (.dict es)).1.body =
      .dict [("file_data", fd), ("filename", fn),
             ("content_type",
               if pyEq (dictGetD es "format" (.str "mp4")) (.str "mp4")
               then PyVal.str "video/mp4" else .str "audio/mpeg")] := by
  rcases hdv : download_video env w (dictGetD es "url" PyVal.none)
      (dictGetD es "format" (.str "mp4")) with ⟨r, w2, tr⟩
  rw [handler_download_path env w es hbody hurl hhost haction, hdv] at h200 ⊢
  cases r with
  | error e => simp [catchAll, resp500] at h200
  | ok r =>
    obtain ⟨fd, fn, hr⟩ := download_video_ok_shape env w _ _ r w2 tr hdv
    exact ⟨fd, fn, by simp [catchAll, hr]⟩

/-- C1 witness: a successful mp3 download takes the audio/mpeg branch
of the amended statement. -/
theorem C1_content_type_witness :
    ∃ fd fn, (lambda_handler envDl w0 (.dict eventMp3List)).1.body =
      .dict [("file_data", fd), ("filename", fn),
             ("content_type",
               if pyEq (dictGetD eventMp3List "format" (.str "mp4")) (.str "mp4")
               then PyVal.str "video/mp4" else .str "audio/mpeg")] :=
  C1_content_type_amended envDl w0 eventMp3List rfl rfl rfl rfl rfl

/-- C8 counterexample: the claim predicts the Invalid-action 400 for
every action outside info and download, but the request with url x and
action delete is rejected earlier by host validation and returns the
Invalid-YouTube-URL 400 instead. -/
theorem C8_invalid_action_counterexample :
    (lambda_handler envDl w0 eventBadBoth).1 = respInvalidUrl ∧
    pyEq (.str "delete") (.str "info") = false ∧
    pyEq (.str "delete") (.str "download") = false ∧
    respInvalidUrl ≠ respInvalidAction :=
  ⟨rfl, rfl, rfl, by simp [respInvalidUrl, respInvalidAction, Response.mk.injEq]⟩

/-- C8 (amended): for every request whose url is present, truthy and
host-valid, an action value outside info and download produces the 400
Invalid-action response and no collaborator call is made. -/
theorem C8_invalid_action_amended (env : Env) (w : World) (es : List (String × PyVal))
    (hbody : pyTruthy (dictGetD es "body" PyVal.none) = false)
    (hurl : pyTruthy (dictGetD es "url" PyVal.none) = true)
    (hhost : hostOk (dictGetD es "url" PyVal.none) = .ok true)
    (hai : pyEq (dictGetD es "action" (.str "info")) (.str "info") = false)
    (had : pyEq (dictGetD es "action" (.str "info")) (.str "download") = false) :
    lambda_handler env w (.dict es) = (respInvalidAction, w, []) := by
  unfold lambda_handler
  rw [handlerBody_eq_afterValidation env w es hbody hurl hhost]
  unfold afterValidation
  simp [hai, had, catchAll]

/-- C8 witness: a valid url with action delete yields the
Invalid-action 400 with an empty collaborator trace. -/
theorem C8_invalid_action_amended_witness :
    lambda_handler envDl w0
      (.dict [("url", .str "https://youtube.com/watch"), ("action", .str "delete")]) =
      (respInvalidAction, w0, []) :=
  C8_invalid_action_amended envDl w0
    [("url", .str "https://youtube.com/watch"), ("action", .str "delete")]
    rfl rfl rfl rfl rfl
